import Mathlib

/-!
Verification of the serper-batch-scrape client (`client/serper_scraper.py`).

The Python client is shallowly embedded: external libraries are modelled as
oracle parameters (the HTML parser `BeautifulSoup` as a function producing a
DOM tree, `json.loads` as a partial JSON parser, the HTTP fetch as an
`Except`-valued outcome), while every piece of logic written in the
repository itself (attribute filtering, the JSON-LD regex scan, the
markdown text-replacement pipeline, the batch fan-out) is translated
directly into executable Lean definitions.
-/

namespace SerperScraper

/-- Generic structured JSON value, standing in for Python's `Any` as produced
by `json.loads`. -/
inductive JsonVal where
  | null : JsonVal
  | bool (b : Bool) : JsonVal
  | num (n : Int) : JsonVal
  | str (s : String) : JsonVal
  | arr (xs : List JsonVal) : JsonVal
  | obj (fields : List (String × JsonVal)) : JsonVal
deriving Repr

/-- A node of the parsed HTML tree, as produced by the `BeautifulSoup` oracle:
either a text node (`NavigableString`) or an element with a tag name, an
attribute list and children. -/
inductive Node where
  | text (s : String) : Node
  | elem (tag : String) (attrs : List (String × String)) (children : List Node) : Node
deriving Repr

/-- The soup (document root) is the list of top-level nodes. -/
abbrev Soup := List Node

mutual
/-- `find_all` restricted to one node: the node itself (if its tag is in
`names`) followed by its matching descendants, in document (pre-)order. -/
def findAllNode (names : List String) : Node → List Node
  | Node.text _ => []
  | Node.elem t a cs =>
      (if names.contains t then [Node.elem t a cs] else []) ++ findAllList names cs

/-- `soup.find_all(names)`: all elements whose tag is in `names`, in document
order. -/
def findAllList (names : List String) : List Node → List Node
  | [] => []
  | n :: ns => findAllNode names n ++ findAllList names ns
end

/-- `element.find_all(names)`: BeautifulSoup searches only the descendants of
an element, never the element itself. -/
def elemFindAll (names : List String) : Node → List Node
  | Node.text _ => []
  | Node.elem _ _ cs => findAllList names cs

mutual
/-- All text-node strings below a node, in document order (BeautifulSoup's
`.strings`; script/style contents are ordinary strings to BeautifulSoup and
are included unless the elements were extracted). -/
def textStringsNode : Node → List String
  | Node.text s => [s]
  | Node.elem _ _ cs => textStringsList cs

/-- All text-node strings of a node list, in document order. -/
def textStringsList : List Node → List String
  | [] => []
  | n :: ns => textStringsNode n ++ textStringsList ns
end

mutual
/-- Removal of every element whose tag is in `names`, together with its whole
subtree: the effect of `for t in soup(names): t.extract()`. -/
def extractTagsNode (names : List String) : Node → Node
  | Node.text s => Node.text s
  | Node.elem t a cs => Node.elem t a (extractTagsList names cs)

/-- `extract` over a node list. -/
def extractTagsList (names : List String) : List Node → List Node
  | [] => []
  | Node.text s :: ns => Node.text s :: extractTagsList names ns
  | Node.elem t a cs :: ns =>
      if names.contains t then extractTagsList names ns
      else extractTagsNode names (Node.elem t a cs) :: extractTagsList names ns
end

/-- Python `str.strip()` whitespace: space, tab, newline, carriage return,
vertical tab, form feed. -/
def pySpace (c : Char) : Bool :=
  c = ' ' || c = Char.ofNat 9 || c = Char.ofNat 10 || c = Char.ofNat 13 ||
  c = Char.ofNat 11 || c = Char.ofNat 12

/-- Python `str.strip()`. -/
def pyStrip (s : String) : String :=
  String.mk (((s.data.dropWhile pySpace).reverse.dropWhile pySpace).reverse)

/-- `get_text(separator=sep, strip=True)` over a node list: every text-node
string, stripped, blank strings dropped, joined with the separator. -/
def getTextL (sep : String) (ns : List Node) : String :=
  String.intercalate sep (((textStringsList ns).map pyStrip).filter (fun s => s ≠ ""))

/-- `element.get_text(strip=True)` (default empty separator). -/
def getTextNode (n : Node) : String :=
  getTextL "" [n]

/-- Attribute lookup, `tag.get(k)`. -/
def getAttr (n : Node) (k : String) : Option String :=
  match n with
  | Node.text _ => none
  | Node.elem _ attrs _ =>
      match attrs.find? (fun p => p.1 = k) with
      | some p => some p.2
      | none => none

/-- Truthy attribute lookup: Python's `if tag.get(k):` both requires the
attribute to be present and its value to be a non-empty string. -/
def truthyAttr (n : Node) (k : String) : Option String :=
  match getAttr n k with
  | some v => if v = "" then none else some v
  | none => none

/-- `soup.title.string if soup.title else None`: `.string` of an element is
its single child's string, recursively, and `None` when the child count is
not one. -/
def nodeString : Node → Option String
  | Node.text s => some s
  | Node.elem _ _ [c] => nodeString c
  | Node.elem _ _ _ => none

/-- The page title: the `.string` of the first `<title>` element, if any. -/
def soupTitle (soup : Soup) : Option String :=
  match findAllList ["title"] soup with
  | [] => none
  | t :: _ => nodeString t

/-- One extracted meta tag (`MetaTag` pydantic model). -/
structure MetaTag where
  name : Option String := none
  property : Option String := none
  content : Option String := none
deriving Repr, DecidableEq

/-- `_extract_meta_tags`: one `MetaTag` per `<meta>` element that has at
least one truthy `name` / `property` / `content` attribute, in document
order; the rest are dropped. -/
def extract_meta_tags (soup : Soup) : List MetaTag :=
  (findAllList ["meta"] soup).filterMap (fun tag =>
    let n := truthyAttr tag "name"
    let p := truthyAttr tag "property"
    let c := truthyAttr tag "content"
    if n.isSome || p.isSome || c.isSome then
      some { name := n, property := p, content := c }
    else none)

/-- Python `str.replace(pat, new)` over character lists for a non-empty
pattern: non-overlapping, leftmost-first replacement of every occurrence.
The fuel argument bounds the recursion; one character is consumed per step,
so fuel equal to the input length is always sufficient. -/
def replFuel (pat new : List Char) : Nat → List Char → List Char
  | _, [] => []
  | 0, l => l
  | Nat.succ fuel, c :: cs =>
      if pat.isPrefixOf (c :: cs) then
        new ++ replFuel pat new fuel ((c :: cs).drop pat.length)
      else c :: replFuel pat new fuel cs

/-- Python `str.replace(pat, new)`, including the empty-pattern behaviour
(`new` inserted at every character boundary). -/
def pyReplace (s pat new : String) : String :=
  if pat.data.isEmpty then
    String.mk (new.data ++ (s.data.map (fun c => c :: new.data)).flatten)
  else
    String.mk (replFuel pat.data new.data (s.data.length + 1) s.data)

/-- Literal `"<script"`. -/
def scriptOpen : List Char := "<script".data

/-- Literal `"</script>"`. -/
def closeTag : List Char := "</script>".data

/-- The single-quote character. -/
def quoteChar : Char := Char.ofNat 39

/-- The double-quoted needle `type="application/ld+json"` of the JSON-LD
regex. -/
def needleDQ : List Char := "type=\"application/ld+json\"".data

/-- The single-quoted needle of the JSON-LD regex. -/
def needleSQ : List Char :=
  "type=".data ++ [quoteChar] ++ "application/ld+json".data ++ [quoteChar]

/-- Whether `pat` occurs as a contiguous substring. -/
def containsSub (pat : List Char) : List Char → Bool
  | [] => pat.isPrefixOf []
  | c :: cs => pat.isPrefixOf (c :: cs) || containsSub pat cs

/-- Split at the first occurrence of `pat`: the part before it and the rest
beginning with the occurrence. -/
def splitAtSub (pat : List Char) : List Char → Option (List Char × List Char)
  | [] => if pat.isPrefixOf [] then some ([], []) else none
  | c :: cs =>
      if pat.isPrefixOf (c :: cs) then some ([], c :: cs)
      else
        match splitAtSub pat cs with
        | some (pre, rest) => some (c :: pre, rest)
        | none => none

/-- Split at the first `>` character: the part before it and the part after
it (the `>` itself dropped). -/
def splitAtGt : List Char → Option (List Char × List Char)
  | [] => none
  | c :: cs =>
      if c = '>' then some ([], cs)
      else
        match splitAtGt cs with
        | some (pre, rest) => some (c :: pre, rest)
        | none => none

/-- The scan performed by `re.finditer` with the pattern
`<script[^>]*type=["SQ]application/ld\+json["SQ][^>]*>(.*?)</script>`
(DOTALL): at each position, a match requires the literal `<script`, then the
needle inside the run of non-`>` characters ending at the first `>`, then a
lazily matched body up to the first `</script>`. On a successful match the
scan resumes after the match; otherwise it advances one character. -/
def scanLdAux (fuel : Nat) (l : List Char) : List (List Char) :=
  match fuel, l with
  | 0, _ => []
  | _, [] => []
  | Nat.succ fuel, c :: cs =>
      if scriptOpen.isPrefixOf (c :: cs) then
        match splitAtGt (cs.drop 6) with
        | some (tagPart, afterGt) =>
            if containsSub needleDQ tagPart || containsSub needleSQ tagPart then
              match splitAtSub closeTag afterGt with
              | some (content, rest) =>
                  content :: scanLdAux fuel (rest.drop closeTag.length)
              | none => scanLdAux fuel cs
            else scanLdAux fuel cs
        | none => scanLdAux fuel cs
      else scanLdAux fuel cs

/-- All raw JSON-LD script bodies of an HTML string, in document order. -/
def scanLdScripts (html : String) : List String :=
  (scanLdAux (html.data.length + 1) html.data).map String.mk

/-- One extracted JSON-LD block (`JSONLD` pydantic model): the stripped raw
text plus its parsed value. -/
structure JSONLD where
  raw : String
  parsed : JsonVal
deriving Repr

/-- `_extract_json_ld`: for every regex-matched script body, strip it and
attempt to parse it (`parseJson` is the `json.loads` oracle, `none` meaning
`JSONDecodeError`); blocks that fail to parse are skipped silently. -/
def extract_json_ld (parseJson : String → Option JsonVal) (html : String) :
    List JSONLD :=
  (scanLdScripts html).filterMap (fun blk =>
    let js := pyStrip blk
    match parseJson js with
    | some v => some { raw := js, parsed := v }
    | none => none)

/-- `"#"` repeated `i` times. -/
def hashes (i : Nat) : String := String.mk (List.replicate i '#')

/-- `_html_to_markdown`, applied to the already-parsed soup (the source
re-parses the HTML string with BeautifulSoup; parsing is the oracle's job
here): remove script/style subtrees, take the newline-separated stripped
text, then apply the whole-string replacement stages in source order —
headings h6 down to h1, bold, italic, unordered lists, ordered lists with
one counter shared across all lists, links. -/
def html_to_markdown (soup0 : Soup) : String :=
  let soup := extractTagsList ["script", "style"] soup0
  let text0 := getTextL "\n" soup
  let text1 := [6, 5, 4, 3, 2, 1].foldl (fun acc i =>
    (findAllList ["h" ++ toString i] soup).foldl (fun t header =>
      let headText := getTextNode header
      pyReplace t headText (hashes i ++ " " ++ headText ++ "\n")) acc) text0
  let text2 := (findAllList ["strong", "b"] soup).foldl (fun t bold =>
    let boldText := getTextNode bold
    if boldText ≠ "" then pyReplace t boldText ("**" ++ boldText ++ "**")
    else t) text1
  let text3 := (findAllList ["em", "i"] soup).foldl (fun t italic =>
    let italicText := getTextNode italic
    if italicText ≠ "" then pyReplace t italicText ("*" ++ italicText ++ "*")
    else t) text2
  let text4 := (findAllList ["ul"] soup).foldl (fun t ul =>
    (elemFindAll ["li"] ul).foldl (fun t2 li =>
      let liText := getTextNode li
      if liText ≠ "" then pyReplace t2 liText ("* " ++ liText) else t2) t) text3
  let olResult := (findAllList ["ol"] soup).foldl (fun st ol =>
    (elemFindAll ["li"] ol).foldl (fun st2 li =>
      let liText := getTextNode li
      if liText ≠ "" then
        (pyReplace st2.1 liText (toString st2.2 ++ ". " ++ liText), st2.2 + 1)
      else st2) st) (text4, 1)
  let text5 := olResult.1
  (findAllList ["a"] soup).foldl (fun t a =>
    match getAttr a "href" with
    | some href =>
        let linkText := getTextNode a
        if linkText ≠ "" then
          pyReplace t linkText ("[" ++ linkText ++ "](" ++ href ++ ")")
        else t
    | none => t) text5

/-- The `ScrapeResult` pydantic model. -/
structure ScrapeResult where
  url : String
  timestamp : String
  title : Option String := none
  html : String
  markdown : Option String := none
  text : Option String := none
  meta_tags : List MetaTag
  json_ld : List JSONLD
  error : Option String := none
deriving Repr

/-- The `ScrapeRequest` pydantic model. -/
structure ScrapeRequest where
  url : String
  includeMarkdown : Option Bool := none

/-- The `BatchScrapeRequest` pydantic model. `urls : List[str]` carries no
minimum-length constraint, so the empty list is a valid request. -/
structure BatchScrapeRequest where
  urls : List String
  includeMarkdown : Option Bool := none

/-- `_scrape_single_url`. The HTTP GET (with `raise_for_status`) is the
`fetchResult` oracle: `Except.error e` is any exception raised while
fetching, with message `e`; `Except.ok body` is a 2xx response body.
`parseHtml` is the BeautifulSoup oracle and `parseJson` the `json.loads`
oracle; `ts` is the timestamp captured at entry. On any exception the
function returns a result with empty html, empty tag lists, absent
title/text/markdown and the exception message as `error`; otherwise it
returns the fetched html with the extracted fields and no error. -/
def scrape_single_url (parseHtml : String → Soup) (parseJson : String → Option JsonVal)
    (ts : String) (fetchResult : Except String String) (url : String)
    (include_markdown : Bool) : ScrapeResult :=
  match fetchResult with
  | Except.error e =>
      { url := url, timestamp := ts, html := "", meta_tags := [], json_ld := [],
        error := some e }
  | Except.ok html_content =>
      let soup := parseHtml html_content
      { url := url
        timestamp := ts
        title := soupTitle soup
        html := html_content
        markdown :=
          if include_markdown then some (html_to_markdown (parseHtml html_content))
          else none
        text := some (getTextL "\n" soup)
        meta_tags := extract_meta_tags soup
        json_ld := extract_json_ld parseJson html_content
        error := none }

/-- `scrape`: a single-URL scrape; `request.includeMarkdown or False`
collapses an absent flag to `false`. -/
def scrape (parseHtml : String → Soup) (parseJson : String → Option JsonVal)
    (ts : String) (fetch : String → Except String String)
    (request : ScrapeRequest) : ScrapeResult :=
  scrape_single_url parseHtml parseJson ts (fetch request.url) request.url
    (request.includeMarkdown.getD false)

/-- `batch_scrape`: one `_scrape_single_url` task per URL, gathered by
`asyncio.gather`, which returns results in task-submission order (the input
order), independent of completion order. -/
def batch_scrape (parseHtml : String → Soup) (parseJson : String → Option JsonVal)
    (ts : String) (fetch : String → Except String String)
    (request : BatchScrapeRequest) : List ScrapeResult :=
  request.urls.map (fun u =>
    scrape_single_url parseHtml parseJson ts (fetch u) u
      (request.includeMarkdown.getD false))

/-- The `GoogleSearchRequest` pydantic model. -/
structure GoogleSearchRequest where
  q : String
  gl : String
  hl : String
  num : Option Int := none
  page : Option Int := none
  tbs : Option String := none
  location : Option String := none
  autocorrect : Option Bool := none

/-- `request.model_dump(exclude_none=True)`: required fields always present,
optional fields omitted entirely when absent. -/
def searchPayload (r : GoogleSearchRequest) : List (String × JsonVal) :=
  [("q", JsonVal.str r.q), ("gl", JsonVal.str r.gl), ("hl", JsonVal.str r.hl)]
  ++ (match r.num with | some n => [("num", JsonVal.num n)] | none => [])
  ++ (match r.page with | some p => [("page", JsonVal.num p)] | none => [])
  ++ (match r.tbs with | some t => [("tbs", JsonVal.str t)] | none => [])
  ++ (match r.location with | some l => [("location", JsonVal.str l)] | none => [])
  ++ (match r.autocorrect with | some b => [("autocorrect", JsonVal.bool b)] | none => [])

/-- Python truthiness of the stored API key: `None` and the empty string are
falsy. -/
def keyTruthy : Option String → Bool
  | none => false
  | some k => k ≠ ""

/-- `google_search`: `net` is the HTTP POST oracle; the second component of
the result counts how many network requests were issued. With no truthy API
key the `ValueError` is raised before the `httpx` block is entered, so the
count is zero; otherwise the serialized payload is posted exactly once. -/
def google_search (apiKey : Option String)
    (net : List (String × JsonVal) → Except String JsonVal)
    (request : GoogleSearchRequest) : Except String JsonVal × Nat :=
  if keyTruthy apiKey then
    (net (searchPayload request), 1)
  else
    (Except.error "Serper API key is required for search operations", 0)

/-- BeautifulSoup oracle for documents that parse to an empty soup (for
example the empty HTML string). -/
def emptyParse : String → Soup := fun _ => []

/-- `json.loads` oracle that rejects every input. -/
def noJson : String → Option JsonVal := fun _ => none

/-- HTML with one valid and one syntactically invalid JSON-LD block. -/
def exHtml : String :=
  "<script type=\"application/ld+json\">\x7b\"a\":1\x7d</script><script type=\"application/ld+json\">\x7boops</script>"

/-- The raw text of the valid JSON-LD block of `exHtml`. -/
def exRaw : String := "\x7b\"a\":1\x7d"

/-- The raw text of the invalid JSON-LD block of `exHtml`. -/
def exBadRaw : String := "\x7boops"

/-- The parsed value of the valid block of `exHtml`. -/
def exVal : JsonVal := JsonVal.obj [("a", JsonVal.num 1)]

/-- `json.loads` oracle for `exHtml`: the well-formed block parses, the
malformed one raises `JSONDecodeError`. -/
def exParse : String → Option JsonVal :=
  fun s => if s = exRaw then some exVal else none

/-- The extracted block of `exHtml`. -/
def exBlock : JSONLD := { raw := exRaw, parsed := exVal }

/-- DOM of `<h1>Intro</h1><p>Intro happens twice: Intro</p>`. -/
def introSoup : Soup :=
  [Node.elem "h1" [] [Node.text "Intro"],
   Node.elem "p" [] [Node.text "Intro happens twice: Intro"]]

/-- DOM of a page whose h2 and h1 have the same text, showing that level 1
is processed after level 2. -/
def nestSoup : Soup :=
  [Node.elem "h2" [] [Node.text "A"], Node.elem "h1" [] [Node.text "A"]]

/-- DOM of `<ol><li>a</li><li>b</li></ol><ol><li>c</li><li>d</li></ol>`. -/
def olSoup : Soup :=
  [Node.elem "ol" [] [Node.elem "li" [] [Node.text "a"], Node.elem "li" [] [Node.text "b"]],
   Node.elem "ol" [] [Node.elem "li" [] [Node.text "c"], Node.elem "li" [] [Node.text "d"]]]

/-- The recording condition of `_extract_meta_tags`: at least one truthy
`name` / `property` / `content` attribute. -/
def metaTruthy (t : Node) : Bool :=
  (truthyAttr t "name").isSome || (truthyAttr t "property").isSome ||
  (truthyAttr t "content").isSome

/-- The `MetaTag` built from a recorded `<meta>` element. -/
def metaRecord (t : Node) : MetaTag :=
  { name := truthyAttr t "name"
    property := truthyAttr t "property"
    content := truthyAttr t "content" }

/-- Helper: the `url` field of a single-URL scrape always echoes the
requested URL, on success and on failure alike. -/
theorem scrape_single_url_url_eq (ph : String → Soup) (pj : String → Option JsonVal)
    (ts : String) (fo : Except String String) (u : String) (m : Bool) :
    (scrape_single_url ph pj ts fo u m).url = u := by
  cases fo <;> rfl

/-- Helper: the length of a guarded `filterMap` equals the length of the
corresponding `filter`. -/
theorem filterMap_guard_length {α β : Type} (p : α → Bool) (g : α → β) :
    ∀ l : List α,
      (l.filterMap (fun a => if p a then some (g a) else none)).length
        = (l.filter p).length := by
  intro l
  induction l with
  | nil => rfl
  | cons a t ih =>
      by_cases h : p a <;>
        simp [List.filterMap_cons, List.filter_cons, h, ih]

/-- Helper: the raw strings of the extracted JSON-LD blocks are exactly the
stripped scanned bodies that parse, in document order. -/
theorem extract_json_ld_raw_map (parse : String → Option JsonVal) (html : String) :
    (extract_json_ld parse html).map JSONLD.raw
      = ((scanLdScripts html).map pyStrip).filter (fun s => (parse s).isSome) := by
  unfold extract_json_ld
  generalize scanLdScripts html = l
  induction l with
  | nil => rfl
  | cons a t ih =>
      cases h : parse (pyStrip a) <;>
        simp [List.filterMap_cons, List.filter_cons, h, ih]

/-- Helper: every extracted JSON-LD block records a successful parse of its
own raw text. -/
theorem extract_json_ld_parsed (parse : String → Option JsonVal) (html : String) :
    ∀ b ∈ extract_json_ld parse html, parse b.raw = some b.parsed := by
  intro b hb
  unfold extract_json_ld at hb
  rw [List.mem_filterMap] at hb
  obtain ⟨a, _, ha⟩ := hb
  cases h : parse (pyStrip a) with
  | none => simp [h] at ha
  | some v =>
      simp [h] at ha
      rw [← ha]
      exact h

/-- C1 (counterexample): the claimed dichotomy fails as stated. A successful
fetch whose 2xx response body is the empty string yields a result with
`error` absent **and** `html` empty, so neither disjunct holds. -/
theorem C1_counterexample :
    ¬ (((scrape_single_url emptyParse noJson "t" (Except.ok "") "u" false).error = none ∧
        (scrape_single_url emptyParse noJson "t" (Except.ok "") "u" false).html ≠ "") ∨
       ((scrape_single_url emptyParse noJson "t" (Except.ok "") "u" false).error ≠ none ∧
        (scrape_single_url emptyParse noJson "t" (Except.ok "") "u" false).html = "")) := by
  intro h
  rcases h with ⟨_, h2⟩ | ⟨h1, _⟩
  · exact h2 rfl
  · exact h1 rfl

/-- C1 (amended): provided every successful fetch returns a non-empty body,
every `ScrapeResult` satisfies exactly one of the two states — error absent
with non-empty html, or error present with empty html — and whenever error
is present, title, text and markdown are all absent. -/
theorem C1_result_dichotomy (ph : String → Soup) (pj : String → Option JsonVal)
    (ts url : String) (m : Bool) (fo : Except String String) (r : ScrapeResult)
    (hr : r = scrape_single_url ph pj ts fo url m)
    (hod : ∀ s, fo = Except.ok s → s ≠ "") :
    ((r.error = none ∧ r.html ≠ "") ∨ (r.error ≠ none ∧ r.html = ""))
    ∧ ¬ ((r.error = none ∧ r.html ≠ "") ∧ (r.error ≠ none ∧ r.html = ""))
    ∧ (r.error ≠ none → r.title = none ∧ r.text = none ∧ r.markdown = none) := by
  subst hr
  cases fo with
  | error e =>
      refine ⟨Or.inr ⟨by simp [scrape_single_url], rfl⟩, ?_, ?_⟩
      · rintro ⟨⟨h1, _⟩, _⟩
        simp [scrape_single_url] at h1
      · intro _
        exact ⟨rfl, rfl, rfl⟩
  | ok body =>
      refine ⟨Or.inl ⟨rfl, hod body rfl⟩, ?_, ?_⟩
      · rintro ⟨_, ⟨h1, _⟩⟩
        simp [scrape_single_url] at h1
      · intro h1
        simp [scrape_single_url] at h1

/-- C1 (witness): the amended dichotomy instantiated at a successful fetch
of a non-empty page. -/
theorem C1_result_dichotomy_witness :
    (((scrape_single_url emptyParse noJson "t" (Except.ok "<p>x</p>") "u" false).error = none ∧
      (scrape_single_url emptyParse noJson "t" (Except.ok "<p>x</p>") "u" false).html ≠ "") ∨
     ((scrape_single_url emptyParse noJson "t" (Except.ok "<p>x</p>") "u" false).error ≠ none ∧
      (scrape_single_url emptyParse noJson "t" (Except.ok "<p>x</p>") "u" false).html = ""))
    ∧ ¬ (((scrape_single_url emptyParse noJson "t" (Except.ok "<p>x</p>") "u" false).error = none ∧
          (scrape_single_url emptyParse noJson "t" (Except.ok "<p>x</p>") "u" false).html ≠ "") ∧
         ((scrape_single_url emptyParse noJson "t" (Except.ok "<p>x</p>") "u" false).error ≠ none ∧
          (scrape_single_url emptyParse noJson "t" (Except.ok "<p>x</p>") "u" false).html = ""))
    ∧ ((scrape_single_url emptyParse noJson "t" (Except.ok "<p>x</p>") "u" false).error ≠ none →
        (scrape_single_url emptyParse noJson "t" (Except.ok "<p>x</p>") "u" false).title = none ∧
        (scrape_single_url emptyParse noJson "t" (Except.ok "<p>x</p>") "u" false).text = none ∧
        (scrape_single_url emptyParse noJson "t" (Except.ok "<p>x</p>") "u" false).markdown = none) :=
  C1_result_dichotomy emptyParse noJson "t" "u" false (Except.ok "<p>x</p>") _ rfl
    (fun s h => by injection h with h2; subst h2; decide)

/-- C2: for a non-empty URL list, the batch result has the same length as
the input and the result at every index echoes the URL at that index,
regardless of per-URL fetch outcomes. -/
theorem C2_batch_order (ph : String → Soup) (pj : String → Option JsonVal)
    (ts : String) (fetch : String → Except String String)
    (urls : List String) (m : Option Bool) (_hne : urls ≠ []) :
    (batch_scrape ph pj ts fetch { urls := urls, includeMarkdown := m }).length = urls.length
    ∧ ∀ i : Nat,
        ((batch_scrape ph pj ts fetch { urls := urls, includeMarkdown := m })[i]?).map
            ScrapeResult.url = urls[i]? := by
  constructor
  · simp [batch_scrape]
  · intro i
    simp only [batch_scrape, List.getElem?_map]
    cases h : urls[i]? with
    | none => rfl
    | some u => simp [scrape_single_url_url_eq]

/-- C2 (witness): batch order instantiated at a two-URL batch whose fetches
both fail. -/
theorem C2_batch_order_witness :
    (batch_scrape emptyParse noJson "t" (fun _ => Except.error "refused")
        { urls := ["a", "b"], includeMarkdown := none }).length = (["a", "b"] : List String).length
    ∧ ∀ i : Nat,
        ((batch_scrape emptyParse noJson "t" (fun _ => Except.error "refused")
            { urls := ["a", "b"], includeMarkdown := none })[i]?).map ScrapeResult.url
          = (["a", "b"] : List String)[i]? :=
  C2_batch_order emptyParse noJson "t" (fun _ => Except.error "refused")
    ["a", "b"] none (by decide)

/-- C3: the single-URL scrape is a total function whose failure is encoded
in the `error` field (`some` exactly on a failed fetch, `none` on success),
and the batch result at an index depends only on the fetch outcome of the
URL at that index: two fetch oracles that agree on `urls[i]` give batches
that agree at position `i`. -/
theorem C3_failure_isolation (ph : String → Soup) (pj : String → Option JsonVal)
    (ts : String) (m : Option Bool) (urls : List String)
    (f g : String → Except String String) (i : Nat) (u : String)
    (hu : urls[i]? = some u) (hagree : f u = g u) :
    (∀ e url mk, (scrape_single_url ph pj ts (Except.error e) url mk).error = some e)
    ∧ (∀ body url mk, (scrape_single_url ph pj ts (Except.ok body) url mk).error = none)
    ∧ (batch_scrape ph pj ts f { urls := urls, includeMarkdown := m })[i]?
        = (batch_scrape ph pj ts g { urls := urls, includeMarkdown := m })[i]? := by
  refine ⟨fun _ _ _ => rfl, fun _ _ _ => rfl, ?_⟩
  simp [batch_scrape, List.getElem?_map, hu, hagree]

/-- C3 (witness): failure isolation instantiated at a batch where the two
oracles agree on the first URL and the second URL fails under one of them. -/
theorem C3_failure_isolation_witness :
    (∀ e url mk,
        (scrape_single_url emptyParse noJson "t" (Except.error e) url mk).error = some e)
    ∧ (∀ body url mk,
        (scrape_single_url emptyParse noJson "t" (Except.ok body) url mk).error = none)
    ∧ (batch_scrape emptyParse noJson "t"
          (fun s => if s = "bad" then Except.error "refused" else Except.ok "<p>hi</p>")
          { urls := ["good", "bad"], includeMarkdown := none })[0]?
        = (batch_scrape emptyParse noJson "t" (fun _ => Except.ok "<p>hi</p>")
            { urls := ["good", "bad"], includeMarkdown := none })[0]? :=
  C3_failure_isolation emptyParse noJson "t" none ["good", "bad"]
    (fun s => if s = "bad" then Except.error "refused" else Except.ok "<p>hi</p>")
    (fun _ => Except.ok "<p>hi</p>") 0 "good" rfl rfl

/-- C4: a client constructed without a Serper API key fails every search
with the configuration error message, and the network-request counter stays
at zero — no HTTP request is issued. -/
theorem C4_no_key_no_network (net : List (String × JsonVal) → Except String JsonVal)
    (request : GoogleSearchRequest) :
    google_search none net request
      = (Except.error "Serper API key is required for search operations", 0) := rfl

/-- C5 (counterexample): an empty URL list does not fail the call — the
batch returns the normal empty result list, with every fetch failing or not
being reachable at all. -/
theorem C5_counterexample :
    batch_scrape emptyParse noJson "t" (fun _ => Except.error "refused")
      { urls := [], includeMarkdown := none } = [] := rfl

/-- C5 (amended): `batch_scrape` accepts any ordered URL list; individual
URL failures never raise, each being encoded in the corresponding result's
`error` field, and the empty input list yields an empty result list rather
than failing the call. -/
theorem C5_batch_totality (ph : String → Soup) (pj : String → Option JsonVal)
    (ts : String) (fetch : String → Except String String)
    (urls : List String) (m : Option Bool) :
    (batch_scrape ph pj ts fetch { urls := urls, includeMarkdown := m }).length = urls.length
    ∧ (∀ i : Nat,
        ((batch_scrape ph pj ts fetch { urls := urls, includeMarkdown := m })[i]?).map
            ScrapeResult.error
          = (urls[i]?).map (fun u =>
              match fetch u with
              | Except.error e => some e
              | Except.ok _ => none))
    ∧ batch_scrape ph pj ts fetch { urls := [], includeMarkdown := m } = [] := by
  refine ⟨by simp [batch_scrape], ?_, rfl⟩
  intro i
  simp only [batch_scrape, List.getElem?_map]
  cases h : urls[i]? with
  | none => rfl
  | some u => cases hf : fetch u <;> simp [scrape_single_url, hf]

/-- C6: JSON-LD extraction keeps exactly the scanned script bodies whose
stripped content parses, in document order, records only successful parses,
and never produces a page-level error; on HTML with one valid and one
syntactically invalid block the result is exactly the valid block, even
though the scan itself sees both blocks. -/
theorem C6_json_ld_filter (parse : String → Option JsonVal) (html : String)
    (b : JSONLD) (hb : b ∈ extract_json_ld parse html) :
    ((extract_json_ld parse html).map JSONLD.raw
        = ((scanLdScripts html).map pyStrip).filter (fun s => (parse s).isSome))
    ∧ parse b.raw = some b.parsed
    ∧ extract_json_ld exParse exHtml = [exBlock]
    ∧ scanLdScripts exHtml = [exRaw, exBadRaw] :=
  ⟨extract_json_ld_raw_map parse html, extract_json_ld_parsed parse html b hb, rfl, rfl⟩

/-- C6 (witness): the JSON-LD property instantiated at the one-valid-one-
invalid example, with the valid block as the member. -/
theorem C6_json_ld_filter_witness :
    ((extract_json_ld exParse exHtml).map JSONLD.raw
        = ((scanLdScripts exHtml).map pyStrip).filter (fun s => (exParse s).isSome))
    ∧ exParse exBlock.raw = some exBlock.parsed
    ∧ extract_json_ld exParse exHtml = [exBlock]
    ∧ scanLdScripts exHtml = [exRaw, exBadRaw] :=
  C6_json_ld_filter exParse exHtml exBlock
    (by
      have h : extract_json_ld exParse exHtml = [exBlock] := rfl
      rw [h]
      exact List.mem_singleton.mpr rfl)

/-- C7 (counterexample): a `<meta name="">` element has a `name` attribute
present, yet the extractor records zero entries for it, because the code
requires a truthy (non-empty) attribute value, not mere presence. -/
theorem C7_counterexample :
    extract_meta_tags [Node.elem "meta" [("name", "")] []] = [] := rfl

/-- C7 (amended): one `MetaTag` is recorded per `<meta>` element having at
least one of `name` / `property` / `content` present with a non-empty
value, the rest are dropped; every recorded entry has at least one field
set; a charset-only meta yields zero entries and a name+content meta yields
exactly one. -/
theorem C7_meta_truthiness (soup : Soup) (mt : MetaTag)
    (hmt : mt ∈ extract_meta_tags soup) :
    ((extract_meta_tags soup).length
        = ((findAllList ["meta"] soup).filter metaTruthy).length)
    ∧ (mt.name ≠ none ∨ mt.property ≠ none ∨ mt.content ≠ none)
    ∧ extract_meta_tags [Node.elem "meta" [("charset", "utf-8")] []] = []
    ∧ extract_meta_tags [Node.elem "meta" [("name", "description"), ("content", "x")] []]
        = [{ name := some "description", property := none, content := some "x" }] := by
  have hrepr : extract_meta_tags soup
      = (findAllList ["meta"] soup).filterMap
          (fun a => if metaTruthy a then some (metaRecord a) else none) := rfl
  refine ⟨?_, ?_, rfl, rfl⟩
  · rw [hrepr]
    exact filterMap_guard_length metaTruthy metaRecord _
  · rw [hrepr, List.mem_filterMap] at hmt
    obtain ⟨a, _, ha⟩ := hmt
    by_cases h : metaTruthy a
    · rw [if_pos h] at ha
      have hmt2 := Option.some.inj ha
      subst hmt2
      unfold metaTruthy at h
      simp only [Bool.or_eq_true, Option.isSome_iff_ne_none] at h
      simp only [metaRecord]
      tauto
    · rw [if_neg h] at ha
      exact absurd ha (by simp)

/-- C7 (witness): the amended meta-tag property instantiated at a soup with
one name+content meta element. -/
theorem C7_meta_truthiness_witness :
    ((extract_meta_tags [Node.elem "meta" [("name", "description"), ("content", "x")] []]).length
        = ((findAllList ["meta"] [Node.elem "meta" [("name", "description"), ("content", "x")] []]).filter
            metaTruthy).length)
    ∧ ((MetaTag.mk (some "description") none (some "x")).name ≠ none
        ∨ (MetaTag.mk (some "description") none (some "x")).property ≠ none
        ∨ (MetaTag.mk (some "description") none (some "x")).content ≠ none)
    ∧ extract_meta_tags [Node.elem "meta" [("charset", "utf-8")] []] = []
    ∧ extract_meta_tags [Node.elem "meta" [("name", "description"), ("content", "x")] []]
        = [{ name := some "description", property := none, content := some "x" }] :=
  C7_meta_truthiness [Node.elem "meta" [("name", "description"), ("content", "x")] []]
    (MetaTag.mk (some "description") none (some "x")) (by decide)

/-- C8: ordered-list numbering shares one counter across all ordered lists
of the page: two two-item lists are numbered 1,2,3,4 and not 1,2,1,2. -/
theorem C8_shared_ol_counter :
    html_to_markdown olSoup = "1. a\n2. b\n3. c\n4. d"
    ∧ html_to_markdown olSoup ≠ "1. a\n2. b\n1. c\n2. d" := by
  constructor
  · rfl
  · decide

/-- C9: heading replacement works by whole-string match, so every literal
occurrence of a heading's text is transformed (the spec's
`<h1>Intro</h1><p>Intro happens twice: Intro</p>` example), and levels are
processed from 6 down to 1, so an h1 replacement is applied on top of the
already-transformed text of a same-text h2. -/
theorem C9_heading_replace_all :
    html_to_markdown introSoup = "# Intro\n\n# Intro\n happens twice: # Intro\n"
    ∧ html_to_markdown nestSoup = "## # A\n\n\n## # A\n\n" := by
  constructor <;> rfl

/-- C10: an omitted `includeMarkdown` flag behaves exactly like an explicit
`false`, for both the single and the batch scrape, and the produced results
carry no markdown. -/
theorem C10_markdown_default (ph : String → Soup) (pj : String → Option JsonVal)
    (ts : String) (fetch : String → Except String String) (url : String)
    (urls : List String) (r : ScrapeResult)
    (hr : r ∈ batch_scrape ph pj ts fetch { urls := urls, includeMarkdown := none }) :
    scrape ph pj ts fetch { url := url, includeMarkdown := none }
      = scrape ph pj ts fetch { url := url, includeMarkdown := some false }
    ∧ (scrape ph pj ts fetch { url := url, includeMarkdown := none }).markdown = none
    ∧ batch_scrape ph pj ts fetch { urls := urls, includeMarkdown := none }
      = batch_scrape ph pj ts fetch { urls := urls, includeMarkdown := some false }
    ∧ r.markdown = none := by
  refine ⟨rfl, ?_, rfl, ?_⟩
  · cases hf : fetch url <;> simp [scrape, scrape_single_url, hf]
  · simp only [batch_scrape, List.mem_map] at hr
    obtain ⟨u, _, hu⟩ := hr
    cases hf : fetch u <;> simp [← hu, scrape_single_url, hf]

/-- C10 (witness): the markdown default instantiated at a one-URL batch
whose fetch fails. -/
theorem C10_markdown_default_witness :
    scrape emptyParse noJson "t" (fun _ => Except.error "x") { url := "u", includeMarkdown := none }
      = scrape emptyParse noJson "t" (fun _ => Except.error "x") { url := "u", includeMarkdown := some false }
    ∧ (scrape emptyParse noJson "t" (fun _ => Except.error "x") { url := "u", includeMarkdown := none }).markdown = none
    ∧ batch_scrape emptyParse noJson "t" (fun _ => Except.error "x") { urls := ["u"], includeMarkdown := none }
      = batch_scrape emptyParse noJson "t" (fun _ => Except.error "x") { urls := ["u"], includeMarkdown := some false }
    ∧ (scrape_single_url emptyParse noJson "t" (Except.error "x") "u" false).markdown = none :=
  C10_markdown_default emptyParse noJson "t" (fun _ => Except.error "x") "u" ["u"]
    (scrape_single_url emptyParse noJson "t" (Except.error "x") "u" false)
    (by
      have h : batch_scrape emptyParse noJson "t" (fun _ => Except.error "x")
          { urls := ["u"], includeMarkdown := none }
          = [scrape_single_url emptyParse noJson "t" (Except.error "x") "u" false] := rfl
      rw [h]
      exact List.mem_singleton.mpr rfl)

end SerperScraper
